import Mathlib

/-!
Verification development for the phprtc/clientside repository.

The repository ships three near-duplicate TypeScript variants of one design:
  - src/index.ts                        (class RTC_Websocket with rooms, no canReconnect flag)
  - src/src/Websocket.ts                (three concatenated modules: the plain Websocket class,
                                         the Event class, and the full RTC_Websocket variant that
                                         has the canReconnect flag, conn.rejected handling and
                                         client ping support)
  - src/unnamed/part_000                (an older RTC_Websocket variant)

This file gives a shallow embedding of the listener registries (RTC_EventEmitter and the Event
class), the send-while-not-open queuing path, the connection lifecycle state machine of
src/index.ts (namespace IW), the lifecycle state machine of the full variant in
src/src/Websocket.ts (namespace W2), the inbound socket message handler and the room routing
code, together with theorems settling the frozen claims about them.

Timers are modelled explicitly: setTimeout / setInterval returns a fresh numeric handle taken
from a counter, the handle is recorded in the list of live timers, and clearTimeout /
clearInterval removes exactly the timer with the stored handle from that list (a no-op when
the handle is absent or stale).  A fired one-shot timer leaves the live list; a fired interval
timer stays live.  A ghost counter reconAttempts counts the invocations of
createSocket(true), i.e. performed reconnection attempts.
-/

/-- Listener buckets of the emitters. A bucket value of none models an absent key
(hasOwnProperty returning false); some xs models a key holding the array xs.
The listener type is abstract; listeners are compared by identity, so Nat is used
as listener identity in concrete scenarios. -/
structure Listeners (L : Type) where
  onMap : String → Option (List L)
  onceMap : String → Option (List L)

/-- Fresh registry with no buckets, as built by the emitter constructors. -/
def Listeners.empty {L : Type} : Listeners L :=
  { onMap := fun _ => none, onceMap := fun _ => none }

/-- Push a listener at the end of a bucket, creating the bucket when absent.
This models: if (!map[name]) map[name] = []; map[name].push(listener). -/
def Listeners.bucketAdd {L : Type} (m : String → Option (List L)) (name : String) (l : L) :
    String → Option (List L) :=
  fun n => if n = name then some ((m name).getD [] ++ [l]) else m n

/-- Listeners invoked by one dispatch call: the persistent bucket is iterated first
(arguments spread), then the one-shot bucket (arguments passed as one array). -/
structure Fired (L : Type) where
  persistent : List L
  oneShot : List L
deriving DecidableEq

/-- The on method of RTC_EventEmitter (src/index.ts lines 35-41). -/
def RTC_EventEmitter.on {L : Type} (e : Listeners L) (name : String) (l : L) : Listeners L :=
  { e with onMap := Listeners.bucketAdd e.onMap name l }

/-- The once method of RTC_EventEmitter (src/index.ts lines 43-49): the listener is
pushed into the once bucket. -/
def RTC_EventEmitter.once {L : Type} (e : Listeners L) (name : String) (l : L) : Listeners L :=
  { e with onceMap := Listeners.bucketAdd e.onceMap name l }

/-- The dispatch method (src/index.ts lines 51-67): invoke the persistent bucket in
registration order, then the one-shot bucket in registration order, then delete the
one-shot bucket for that name. -/
def RTC_EventEmitter.dispatch {L : Type} (e : Listeners L) (name : String) :
    Fired L × Listeners L :=
  (⟨(e.onMap name).getD [], (e.onceMap name).getD []⟩,
   { e with onceMap := fun n => if n = name then none else e.onceMap n })

/-- The on method of the Event class (src/src/Websocket.ts lines 331-337). -/
def EventCls.on {L : Type} (e : Listeners L) (name : String) (l : L) : Listeners L :=
  { e with onMap := Listeners.bucketAdd e.onMap name l }

/-- The once method of the Event class (src/src/Websocket.ts lines 339-345).  The
source initializes the once bucket when absent but then pushes the listener into
the on bucket: this.listeners['on'][name].push(listener).  When the on bucket for
that name is absent, the push is performed on undefined and throws a TypeError,
modelled by the none result. -/
def EventCls.once {L : Type} (e : Listeners L) (name : String) (l : L) : Option (Listeners L) :=
  let e1 : Listeners L :=
    { e with onceMap := fun n => if n = name then some ((e.onceMap name).getD []) else e.onceMap n }
  match e1.onMap name with
  | none => none
  | some xs =>
      some { e1 with onMap := fun n => if n = name then some (xs ++ [l]) else e1.onMap n }

/-- The dispatch method of the Event class (src/src/Websocket.ts lines 347-363);
textually identical to RTC_EventEmitter.dispatch. -/
def EventCls.dispatch {L : Type} (e : Listeners L) (name : String) : Fired L × Listeners L :=
  (⟨(e.onMap name).getD [], (e.onceMap name).getD []⟩,
   { e with onceMap := fun n => if n = name then none else e.onceMap n })

/-- Concrete registry for claim C6: listener 0 is registered persistently under the
name open, then listener 1 is registered via once under the same name. -/
def evC6 : Option (Listeners Nat) :=
  EventCls.once (EventCls.on Listeners.empty "open" 0) "open" 1

/-- Listeners fired by the first dispatch of the name open in the C6 registry. -/
def evC6fired1 : Fired Nat :=
  (EventCls.dispatch (evC6.getD Listeners.empty) "open").1

/-- Listeners fired by the second dispatch of the name open in the C6 registry. -/
def evC6fired2 : Fired Nat :=
  (EventCls.dispatch (EventCls.dispatch (evC6.getD Listeners.empty) "open").2 "open").1

/-- State of the outbound send path of RTC_Websocket.send (src/index.ts lines 417-449;
the variant at src/src/Websocket.ts lines 837-869 has the same structure).  The field
em is the eventEmitter of the connection; queued sends are the closures registered via
eventEmitter.once('open', ...), identified by consecutive numeric ids drawn from
nextSend.  The field settled records, in order, the futures that have settled, each
paired with true for resolve and false for reject.  The send method is a total
function of this state: the not-open branch only logs and registers the one-shot
listener, so it never throws synchronously. -/
structure SendM where
  connectionState : String
  em : Listeners Nat
  nextSend : Nat
  settled : List (Nat × Bool)

/-- One-shot bucket of the connection emitter under a given event name. -/
def SendM.onceBucket (s : SendM) (name : String) : List Nat :=
  (s.em.onceMap name).getD []

/-- The send method: stringifies the envelope (not tracked here), then either attempts
the transport write at once when isOpened() holds, settling the returned future with
the transport outcome, or registers a one-shot listener for the next open event and
leaves the future pending.  transportOk is the outcome the immediate transport write
would have; it is only consulted on the open path. -/
def SendM.send (s : SendM) (transportOk : Bool) : SendM :=
  if s.connectionState = "open" then
    { s with nextSend := s.nextSend + 1,
             settled := s.settled ++ [(s.nextSend, transportOk)] }
  else
    { s with nextSend := s.nextSend + 1,
             em := RTC_EventEmitter.once s.em "open" s.nextSend }

/-- n consecutive send calls; the transport outcome argument is irrelevant on the
not-open path, so true is passed. -/
def SendM.queueSends : SendM → Nat → SendM
  | s, 0 => s
  | s, n + 1 => SendM.queueSends (SendM.send s true) n

/-- Dispatch of an event name on the connection emitter.  The one-shot listeners under
the name open are exactly the queued send closures; each, when invoked, attempts the
transport write and settles its future, with outcome ok i for send id i. -/
def SendM.fireEvent (s : SendM) (name : String) (ok : Nat → Bool) : SendM :=
  let fe := RTC_EventEmitter.dispatch s.em name
  { s with em := fe.2,
           settled := s.settled ++ fe.1.oneShot.map (fun i => (i, ok i)) }

/-- Concrete start state for the C1 witness: a connection that is still connecting. -/
def sendC1 : SendM :=
  { connectionState := "connecting", em := Listeners.empty, nextSend := 0, settled := [] }

/-- Kind of a live JS timer in the lifecycle machines: reconnect is the single-shot
setTimeout created by the reconnection path whose callback is createSocket(true);
ping is the keepalive setInterval. -/
inductive TKind where
  | reconnect
  | ping
deriving DecidableEq

/-- Remove from the live-timer list the timer named by a stored handle, mirroring
clearTimeout(handle) and clearInterval(handle): a no-op when the variable never held
a handle or when the timer already fired.  JS timer handles are globally unique, so
the timer a stored handle names always has the kind the storing site created, and
removal is keyed on the pair. -/
def clearHandle (live : List (Nat × TKind)) (h : Option Nat) (k : TKind) :
    List (Nat × TKind) :=
  match h with
  | none => live
  | some id => live.filter (fun t => ¬ t = (id, k))

/-- Lifecycle state of the RTC_Websocket class of src/index.ts (fields declared at
lines 131-142).  Only fields the lifecycle code reads or writes are carried; the
emitter and the room registry are modelled separately because, in this variant,
dispatching events never feeds back into these fields.  nextTimer is the supply of
fresh timer handles, live the list of pending timers in creation order, and
reconAttempts a ghost counter of createSocket(true) invocations, i.e. performed
reconnection attempts. -/
structure IW.State where
  connectionState : String
  willReconnect : Bool
  reconnectionInterval : Nat
  reconnectionTimeout : Option Nat
  pingPongIntervalTimer : Option Nat
  nextTimer : Nat
  live : List (Nat × TKind)
  reconAttempts : Nat
deriving DecidableEq

/-- Field initializers of RTC_Websocket (src/index.ts lines 133-142): state standby,
willReconnect true, reconnectionInterval 5000. -/
def IW.init : IW.State :=
  { connectionState := "standby", willReconnect := true, reconnectionInterval := 5000,
    reconnectionTimeout := none, pingPongIntervalTimer := none, nextTimer := 0,
    live := [], reconAttempts := 0 }

/-- Handles of the live reconnect timers, in creation order. -/
def IW.liveReconnect (s : IW.State) : List Nat :=
  (s.live.filter (fun t => t.2 = TKind.reconnect)).map Prod.fst

/-- The createSocket method (src/index.ts lines 495-558): set the state and emit
connecting or reconnecting, resolve the URI, close any previous native socket
(the readyState poll there only ever closes the native socket, so it is not a
lifecycle timer), create the transport and register its listeners.  The transport
notifications arrive later as separate steps.  reconAttempts is the ghost count of
reconnecting-mode invocations. -/
def IW.createSocket (isRe : Bool) (s : IW.State) : IW.State :=
  if isRe then
    { s with connectionState := "reconnecting", reconAttempts := s.reconAttempts + 1 }
  else
    { s with connectionState := "connecting" }

/-- The connect method (src/index.ts lines 391-396). -/
def IW.connect (s : IW.State) : IW.State :=
  IW.createSocket false s

/-- The closeConnection method (src/index.ts lines 469-476): in reconnect mode, set
willReconnect and mark the state internal_reconnection; then ask the transport to
close (the close notification arrives later as a separate step). -/
def IW.closeConnection (reconnectMode : Bool) (s : IW.State) : IW.State :=
  if reconnectMode then
    { s with willReconnect := true, connectionState := "internal_reconnection" }
  else s

/-- The reconnect method (src/index.ts lines 375-384): force-close in reconnect mode,
then, only when reconnectionInterval is truthy (nonzero), create a single-shot timer
and store its handle, overwriting the previous handle without clearing it. -/
def IW.reconnect (s : IW.State) : IW.State :=
  let s1 := IW.closeConnection true s
  if ¬ s1.reconnectionInterval = 0 then
    { s1 with reconnectionTimeout := some s1.nextTimer,
              live := s1.live ++ [(s1.nextTimer, TKind.reconnect)],
              nextTimer := s1.nextTimer + 1 }
  else s1

/-- The clearPingPongInterval method (src/index.ts lines 455-457). -/
def IW.clearPingPongInterval (s : IW.State) : IW.State :=
  { s with live := clearHandle s.live s.pingPongIntervalTimer TKind.ping }

/-- The close method (src/index.ts lines 401-407): disable reconnection, close the
transport, clear the stored reconnect timer handle, clear the keepalive interval,
then dispatch custom.disconnect (no lifecycle effect). -/
def IW.close (s : IW.State) : IW.State :=
  let s1 := { s with willReconnect := false }
  let s2 := IW.closeConnection false s1
  let s3 := { s2 with live := clearHandle s2.live s2.reconnectionTimeout TKind.reconnect }
  IW.clearPingPongInterval s3

/-- The setReconnectionInterval method (src/index.ts lines 356-359). -/
def IW.setReconnectionInterval (n : Nat) (s : IW.State) : IW.State :=
  { s with reconnectionInterval := n }

/-- The changeState method (src/index.ts lines 459-467): record the state, invoke
reconnect when the state is close and willReconnect holds, then dispatch the state
name on the emitter (listener effects are outside the lifecycle fields). -/
def IW.changeState (name : String) (s : IW.State) : IW.State :=
  let s1 := { s with connectionState := name }
  if name = "close" ∧ s1.willReconnect = true then IW.reconnect s1 else s1

/-- Transport open notification (listener at src/index.ts lines 513-528): send the
auth token if set (a queued or immediate send, no lifecycle effect), dispatch
reconnect when the state was reconnecting (no lifecycle effect), start the keepalive
setInterval storing its handle, then changeState open. -/
def IW.notifyOpen (s : IW.State) : IW.State :=
  let s1 := { s with pingPongIntervalTimer := some s.nextTimer,
                     live := s.live ++ [(s.nextTimer, TKind.ping)],
                     nextTimer := s.nextTimer + 1 }
  IW.changeState "open" s1

/-- Transport message notification (listener at src/index.ts lines 530-548): decode,
the pong guard, the double decode of sender.info and meta.user_info, and the message
dispatch touch no lifecycle field in this variant, so the lifecycle state is
unchanged; the dispatch itself is modelled by the router functions further below. -/
def IW.notifyMessage (s : IW.State) : IW.State := s

/-- Transport close notification (listener at src/index.ts lines 550-553): clear the
keepalive interval, then changeState close (which invokes reconnect when
willReconnect holds). -/
def IW.notifyClose (s : IW.State) : IW.State :=
  IW.changeState "close" (IW.clearPingPongInterval s)

/-- Transport error notification (listener at src/index.ts lines 555-557). -/
def IW.notifyError (s : IW.State) : IW.State :=
  IW.changeState "error" s

/-- Firing of a live timer: a pending reconnect timer leaves the live list and runs
its callback createSocket(true) (src/index.ts line 380); a keepalive interval tick
runs send('ping', ...), which touches no lifecycle field and stays live, and a
handle that is not live does nothing. -/
def IW.fireTimer (k : Nat) (s : IW.State) : IW.State :=
  if (k, TKind.reconnect) ∈ s.live then
    IW.createSocket true { s with live := s.live.erase (k, TKind.reconnect) }
  else s

/-- Steps available after close() without an intervening connect(): the transport
notifications and timer firings. -/
inductive IW.Step where
  | nopen
  | nmsg
  | nclose
  | nerror
  | fire (k : Nat)
deriving DecidableEq

def IW.stepRun : IW.Step → IW.State → IW.State
  | IW.Step.nopen, s => IW.notifyOpen s
  | IW.Step.nmsg, s => IW.notifyMessage s
  | IW.Step.nclose, s => IW.notifyClose s
  | IW.Step.nerror, s => IW.notifyError s
  | IW.Step.fire k, s => IW.fireTimer k s

def IW.run : List IW.Step → IW.State → IW.State
  | [], s => s
  | a :: rest, s => IW.run rest (IW.stepRun a s)

/-- Concrete state for the C2 counterexample: a connected instance whose
reconnection interval was set to zero. -/
def iwC2 : IW.State := IW.setReconnectionInterval 0 (IW.connect IW.init)

/-- Concrete state for the C5 and C3 counterexamples: two manual reconnect calls in
a row on a connected instance with the default (nonzero) interval. -/
def iwC5 : IW.State := IW.reconnect (IW.reconnect (IW.connect IW.init))

/-- Concrete state for the C3 counterexample: explicit close() after the two manual
reconnect calls. -/
def iwC3 : IW.State := IW.close iwC5

/-- Concrete state for the C3 amended witness: a single pending reconnect timer whose
handle is the stored one. -/
def iwC3w : IW.State := IW.reconnect (IW.connect IW.init)

/-- Handles of the reconnect timers in a timer list, in order. -/
def lrList (l : List (Nat × TKind)) : List Nat :=
  (l.filter (fun t => t.2 = TKind.reconnect)).map Prod.fst

/-- Receiver object of a wire envelope. -/
structure Receiver where
  type : String
  id : String
deriving DecidableEq

/-- Sender object of a wire envelope; info, when present, is the doubly encoded JSON
string that the message listener re-parses. -/
structure Sender where
  type : String
  id : String
  info : Option String
deriving DecidableEq

/-- Meta object of a wire envelope; user_info, when present, is doubly encoded. -/
structure MetaObj where
  user_info : Option String
deriving DecidableEq

/-- A decoded inbound wire envelope (interface RTC_WSEvent).  sender is an Option
because a well-formed JSON frame may lack the sender member, in which case reading
event.sender.info throws a TypeError. -/
structure Envelope where
  event : String
  sender : Option Sender
  receiver : Receiver
  meta : Option MetaObj
deriving DecidableEq

/-- An outbound send initiated by a handler: the event name and receiver object of
the envelope handed to RTC_Websocket.send (written at once when open, queued until
the next open otherwise). -/
structure OutAction where
  event : String
  receiverType : String
  receiverId : String
deriving DecidableEq

/-- The sendToSystem method (src/src/Websocket.ts lines 871-877): a send addressed
to the receiver with type system and id system. -/
def sendToSystem (ev : String) : OutAction :=
  { event := ev, receiverType := "system", receiverId := "system" }

/-- Target bus of a dispatched event: the connection emitter or the emitter of the
room at a given registry index. -/
inductive BusTarget where
  | conn
  | room (i : Nat)
deriving DecidableEq

/-- One dispatch performed on a bus under an event name. -/
structure Dispatched where
  target : BusTarget
  name : String
deriving DecidableEq

/-- The double-decode pass of the message listeners (src/index.ts lines 537-545 and
src/src/Websocket.ts lines 984-992): event.sender.info is read unconditionally, so a
missing sender throws; when sender.info is present it is re-parsed with JSON.parse
(pinfo, none modelling a throw), and likewise meta.user_info (puinfo). -/
def decodeInfoFields (pinfo puinfo : String → Option String) (env : Envelope) :
    Except Unit Envelope :=
  match env.sender with
  | none => Except.error ()
  | some snd =>
      match
        (match snd.info with
         | none => Except.ok snd
         | some str =>
             match pinfo str with
             | none => Except.error ()
             | some v => Except.ok { snd with info := some v }) with
      | Except.error e => Except.error e
      | Except.ok snd2 =>
          match
            (match env.meta with
             | none => Except.ok none
             | some m =>
                 match m.user_info with
                 | none => Except.ok (some m)
                 | some str =>
                     match puinfo str with
                     | none => Except.error ()
                     | some v => Except.ok (some { user_info := some v })) with
          | Except.error e => Except.error e
          | Except.ok m2 => Except.ok { env with sender := some snd2, meta := m2 }

/-- The socket message listener of the full RTC_Websocket variant
(src/src/Websocket.ts lines 972-995), after a successful JSON.parse of the frame:
pong frames are swallowed, ping frames are answered with one pong to the system
receiver and swallowed, every other frame goes through the double-decode pass and is
then dispatched on the message channel.  The result carries the outbound sends the
listener initiates and the envelope dispatched as message (none when swallowed);
Except.error models a synchronous throw, in which case nothing is dispatched. -/
def onSocketMessage (pinfo puinfo : String → Option String) (env : Envelope) :
    Except Unit (List OutAction × Option Envelope) :=
  if env.event = "pong" then Except.ok ([], none)
  else if env.event = "ping" then Except.ok ([sendToSystem "pong"], none)
  else
    match decodeInfoFields pinfo puinfo env with
    | Except.error e => Except.error e
    | Except.ok env2 => Except.ok ([], some env2)

/-- The socket message listener of the src/index.ts variant (lines 530-548): same as
the full variant but with no ping branch (only pong frames are swallowed). -/
def onSocketMessageIW (pinfo puinfo : String → Option String) (env : Envelope) :
    Except Unit (List OutAction × Option Envelope) :=
  if env.event = "pong" then Except.ok ([], none)
  else
    match decodeInfoFields pinfo puinfo env with
    | Except.error e => Except.error e
    | Except.ok env2 => Except.ok ([], some env2)

/-- The room routing loop of the constructors (src/index.ts lines 172-181 and
src/src/Websocket.ts lines 573-582): scan the registry in order and, on the first
room whose name equals the receiver id, dispatch all_events and the event name on
that room's own bus, then break.  rooms is the list of registry room names in order;
base is the index of its head within the registry. -/
def roomScan : List String → String → String → Nat → List Dispatched
  | [], _, _, _ => []
  | r :: rest, rid, evname, base =>
      if r = rid then
        [{ target := BusTarget.room base, name := "all_events" },
         { target := BusTarget.room base, name := evname }]
      else roomScan rest rid evname (base + 1)

/-- First index of the registry whose room name equals the receiver id; this is the
claim's reading of the scan and is compared with roomScan. -/
def firstIdx : List String → String → Option Nat
  | [], _ => none
  | r :: rest, rid =>
      if r = rid then some 0 else (firstIdx rest rid).map (fun i => i + 1)

/-- The message handler registered by the RTC_Websocket constructor of src/index.ts
(lines 163-183): for envelopes with a nonempty (truthy) event name, dispatch the
unfiltered event channel and the filtered event.<name> channel on the connection
bus, then run the registry scan for room receivers. -/
def routeMessageIW (rooms : List String) (env : Envelope) : List Dispatched :=
  if ¬ env.event = "" then
    [{ target := BusTarget.conn, name := "event" },
     { target := BusTarget.conn, name := "event." ++ env.event }]
      ++ (if env.receiver.type = "room" then roomScan rooms env.receiver.id env.event 0
          else [])
  else []

/-- The message handler registered by the constructor of the full RTC_Websocket
variant (src/src/Websocket.ts lines 552-585): as in src/index.ts, except that a
conn.rejected envelope returns right after the two event dispatches (its lifecycle
effects live in the W2 machine below), so no room routing happens for it. -/
def routeMessageW2 (rooms : List String) (env : Envelope) : List Dispatched :=
  if ¬ env.event = "" then
    [{ target := BusTarget.conn, name := "event" },
     { target := BusTarget.conn, name := "event." ++ env.event }]
      ++ (if env.event = "conn.rejected" then []
          else if env.receiver.type = "room" then roomScan rooms env.receiver.id env.event 0
          else [])
  else []

/-- Full processing of one decoded inbound frame by the full RTC_Websocket variant:
the socket message listener followed, when it dispatches the message channel, by
the message dispatch itself and the constructor routing handler. -/
def processInbound (pinfo puinfo : String → Option String) (rooms : List String)
    (env : Envelope) : Except Unit (List OutAction × List Dispatched) :=
  match onSocketMessage pinfo puinfo env with
  | Except.error e => Except.error e
  | Except.ok (outs, none) => Except.ok (outs, [])
  | Except.ok (outs, some env2) =>
      Except.ok (outs, { target := BusTarget.conn, name := "message" } :: routeMessageW2 rooms env2)

/-- Full processing of one decoded inbound frame by the src/index.ts variant. -/
def processInboundIW (pinfo puinfo : String → Option String) (rooms : List String)
    (env : Envelope) : Except Unit (List OutAction × List Dispatched) :=
  match onSocketMessageIW pinfo puinfo env with
  | Except.error e => Except.error e
  | Except.ok (outs, none) => Except.ok (outs, [])
  | Except.ok (outs, some env2) =>
      Except.ok (outs, { target := BusTarget.conn, name := "message" } :: routeMessageIW rooms env2)

/-- The leave envelope built by RTC_Room.leave (src/index.ts lines 115-120): a send
with event leave addressed to the room receiver (the variant at src/src/Websocket.ts
lines 504-509 uses the event name room_leave instead). -/
def RTC_Room.leaveEnvelope (name : String) : OutAction :=
  { event := "leave", receiverType := "room", receiverId := name }

/-- The leaveRoom method (src/index.ts lines 235-243; src/src/Websocket.ts lines
636-644 is identical up to the leave event name): scan the registry for the first
room with the given name; when found, initiate the leave send and attach a
then-callback that splices that room out of the registry; the callback runs only
when the send future fulfills (fulfilled = true), not when it rejects.  The result
is the list of initiated sends and the registry content after the future settles. -/
def leaveRoom : List String → String → Bool → List OutAction × List String
  | [], _, _ => ([], [])
  | r :: rest, name, fulfilled =>
      if r = name then
        ([RTC_Room.leaveEnvelope name], if fulfilled then rest else r :: rest)
      else
        ((leaveRoom rest name fulfilled).1, r :: (leaveRoom rest name fulfilled).2)

/-- Concrete ping envelope for the C8 witness. -/
def envPing : Envelope :=
  { event := "ping", sender := some { type := "system", id := "system", info := none },
    receiver := { type := "system", id := "system" }, meta := none }

/-- Concrete chat envelope addressed to the room lobby, for the C9 witness. -/
def envChat : Envelope :=
  { event := "chat", sender := some { type := "user", id := "u1", info := none },
    receiver := { type := "room", id := "lobby" }, meta := none }

/-- Concrete envelope with no sender member, for the C10 witness. -/
def envNoSender : Envelope :=
  { event := "chat", sender := none,
    receiver := { type := "room", id := "lobby" }, meta := none }

/-- Lifecycle state of the full RTC_Websocket variant (src/src/Websocket.ts, fields
declared at lines 520-533).  Besides the src/index.ts fields it carries the
canReconnect flag (set false on conn.rejected, never reset) and the
isClientPingEnabled flag guarding the keepalive interval. -/
structure W2.State where
  connectionState : String
  willReconnect : Bool
  canReconnect : Bool
  isClientPingEnabled : Bool
  reconnectionInterval : Nat
  reconnectionTimeout : Option Nat
  pingPongIntervalTimer : Option Nat
  nextTimer : Nat
  live : List (Nat × TKind)
  reconAttempts : Nat
deriving DecidableEq

/-- Field initializers (src/src/Websocket.ts lines 522-532): state standby,
willReconnect true, canReconnect true, client ping disabled, interval 5000. -/
def W2.init : W2.State :=
  { connectionState := "standby", willReconnect := true, canReconnect := true,
    isClientPingEnabled := false, reconnectionInterval := 5000,
    reconnectionTimeout := none, pingPongIntervalTimer := none, nextTimer := 0,
    live := [], reconAttempts := 0 }

/-- Handles of the live reconnect timers, in creation order. -/
def W2.liveReconnect (s : W2.State) : List Nat := lrList s.live

/-- The createSocket method (src/src/Websocket.ts lines 937-1005), as for the
src/index.ts variant; reconAttempts is the ghost count of reconnecting-mode
invocations. -/
def W2.createSocket (isRe : Bool) (s : W2.State) : W2.State :=
  if isRe then
    { s with connectionState := "reconnecting", reconAttempts := s.reconAttempts + 1 }
  else
    { s with connectionState := "connecting" }

/-- The connect method (src/src/Websocket.ts lines 805-810). -/
def W2.connect (s : W2.State) : W2.State :=
  W2.createSocket false s

/-- The closeConnection method (src/src/Websocket.ts lines 907-918): in reconnect
mode set willReconnect and the internal_reconnection marker; when open, send a
conn_close envelope to the system receiver (outbound only); then close the
transport on the next tick (its close notification is a separate step). -/
def W2.closeConnection (reconnectMode : Bool) (s : W2.State) : W2.State :=
  if reconnectMode then
    { s with willReconnect := true, connectionState := "internal_reconnection" }
  else s

/-- The reconnect method (src/src/Websocket.ts lines 787-798): guarded by
canReconnect; force-close in reconnect mode, then schedule one single-shot timer
when the interval is truthy, overwriting the stored handle without clearing it. -/
def W2.reconnect (s : W2.State) : W2.State :=
  if s.canReconnect = true then
    let s1 := W2.closeConnection true s
    if ¬ s1.reconnectionInterval = 0 then
      { s1 with reconnectionTimeout := some s1.nextTimer,
                live := s1.live ++ [(s1.nextTimer, TKind.reconnect)],
                nextTimer := s1.nextTimer + 1 }
    else s1
  else s

/-- The stopPingPong method (src/src/Websocket.ts lines 889-891). -/
def W2.stopPingPong (s : W2.State) : W2.State :=
  { s with live := clearHandle s.live s.pingPongIntervalTimer TKind.ping }

/-- The stopReconnectionTimeout method (src/src/Websocket.ts lines 893-895). -/
def W2.stopReconnectionTimeout (s : W2.State) : W2.State :=
  { s with live := clearHandle s.live s.reconnectionTimeout TKind.reconnect }

/-- The startPingPong method (src/src/Websocket.ts lines 883-887): a keepalive
setInterval whose handle is stored. -/
def W2.startPingPong (s : W2.State) : W2.State :=
  { s with pingPongIntervalTimer := some s.nextTimer,
           live := s.live ++ [(s.nextTimer, TKind.ping)],
           nextTimer := s.nextTimer + 1 }

/-- The close method (src/src/Websocket.ts lines 815-827): disable reconnection,
stop the keepalive, clear the stored reconnect timer handle, send leave envelopes
for the joined rooms (outbound only), then close the transport and dispatch
custom.disconnect on the next tick. -/
def W2.close (s : W2.State) : W2.State :=
  W2.closeConnection false
    (W2.stopReconnectionTimeout (W2.stopPingPong { s with willReconnect := false }))

/-- The changeState method (src/src/Websocket.ts lines 897-905). -/
def W2.changeState (name : String) (s : W2.State) : W2.State :=
  let s1 := { s with connectionState := name }
  if name = "close" ∧ s1.willReconnect = true then W2.reconnect s1 else s1

/-- Transport open notification (listener at src/src/Websocket.ts lines 955-970):
auth send if a token is set (outbound only), reconnect dispatch when the state was
reconnecting (no lifecycle effect), keepalive started only when client ping is
enabled, then changeState open. -/
def W2.notifyOpen (s : W2.State) : W2.State :=
  W2.changeState "open" (if s.isClientPingEnabled = true then W2.startPingPong s else s)

/-- Transport close notification (listener at src/src/Websocket.ts lines 997-1000):
stop the keepalive, then changeState close. -/
def W2.notifyClose (s : W2.State) : W2.State :=
  W2.changeState "close" (W2.stopPingPong s)

/-- Transport error notification (listener at src/src/Websocket.ts lines 1002-1004). -/
def W2.notifyError (s : W2.State) : W2.State :=
  W2.changeState "error" s

/-- Lifecycle effect of a transport message notification: the socket message
listener runs (onSocketMessage); when it dispatches the message channel, the
constructor handler (src/src/Websocket.ts lines 554-585) runs and, exactly on a
conn.rejected event, stops the keepalive, clears the stored reconnect timer handle
and sets canReconnect to false; every other outcome (swallowed frame, throw, or an
ordinary event) leaves the lifecycle fields unchanged. -/
def W2.notifyMessage (pinfo puinfo : String → Option String) (env : Envelope)
    (s : W2.State) : W2.State :=
  match onSocketMessage pinfo puinfo env with
  | Except.error _ => s
  | Except.ok (_, none) => s
  | Except.ok (_, some env2) =>
      if ¬ env2.event = "" then
        if env2.event = "conn.rejected" then
          { W2.stopReconnectionTimeout (W2.stopPingPong s) with canReconnect := false }
        else s
      else s

/-- Firing of a live timer, as in the src/index.ts machine. -/
def W2.fireTimer (k : Nat) (s : W2.State) : W2.State :=
  if (k, TKind.reconnect) ∈ s.live then
    W2.createSocket true { s with live := s.live.erase (k, TKind.reconnect) }
  else s

/-- Steps of the full variant: the public operations connect(), close() and
reconnect(), the transport notifications, and timer firings. -/
inductive W2.Step where
  | uconnect
  | uclose
  | ureconnect
  | nopen
  | nclose
  | nerror
  | nmsg (env : Envelope)
  | fire (k : Nat)
deriving DecidableEq

def W2.stepRun (pinfo puinfo : String → Option String) : W2.Step → W2.State → W2.State
  | W2.Step.uconnect, s => W2.connect s
  | W2.Step.uclose, s => W2.close s
  | W2.Step.ureconnect, s => W2.reconnect s
  | W2.Step.nopen, s => W2.notifyOpen s
  | W2.Step.nclose, s => W2.notifyClose s
  | W2.Step.nerror, s => W2.notifyError s
  | W2.Step.nmsg env, s => W2.notifyMessage pinfo puinfo env s
  | W2.Step.fire k, s => W2.fireTimer k s

def W2.runSteps (pinfo puinfo : String → Option String) :
    List W2.Step → W2.State → W2.State
  | [], s => s
  | a :: rest, s => W2.runSteps pinfo puinfo rest (W2.stepRun pinfo puinfo a s)

/-- Concrete conn.rejected envelope. -/
def envRejected : Envelope :=
  { event := "conn.rejected",
    sender := some { type := "server", id := "server", info := none },
    receiver := { type := "system", id := "system" }, meta := none }

/-- Concrete pre-rejection state for the C4 counterexample: two manual reconnect
calls in a row on a connected full-variant instance, leaving reconnect timers 0 and
1 live with only handle 1 stored. -/
def w2C4pre : W2.State := W2.reconnect (W2.reconnect (W2.connect W2.init))

/-- State right after the conn.rejected envelope is received in w2C4pre. -/
def w2C4 : W2.State :=
  W2.notifyMessage (fun _ => none) (fun _ => none) envRejected w2C4pre

/-- C6: the claim states that a listener registered via the once method of the Event
class is stored in the one-shot set and invoked at most once across all subsequent
dispatch calls.  This is false on the code: once pushes the listener into the
persistent on bucket (src/src/Websocket.ts line 344), so listener 1, registered via
once, is invoked by the persistent pass of every later dispatch of that name.  In the
concrete registry evC6 it fires in both of two consecutive dispatches of the name open
and never sits in the one-shot set.  Moreover, calling once for a name with no prior
persistent registration throws (push on undefined), modelled by the none result. -/
theorem C6_once_listener_fires_twice :
    evC6.isSome = true ∧
    evC6fired1.persistent.count 1 = 1 ∧
    evC6fired2.persistent.count 1 = 1 ∧
    evC6fired1.oneShot.count 1 = 0 ∧
    evC6fired2.oneShot.count 1 = 0 ∧
    EventCls.once (Listeners.empty (L := Nat)) "open" 1 = none := by
  refine ⟨rfl, by decide, by decide, by decide, by decide, rfl⟩

theorem SendM.send_not_open (s : SendM) (t : Bool) (h : ¬ s.connectionState = "open") :
    (SendM.send s t).connectionState = s.connectionState ∧
    (SendM.send s t).settled = s.settled ∧
    (SendM.send s t).nextSend = s.nextSend + 1 ∧
    ∀ m, (SendM.send s t).onceBucket m
        = s.onceBucket m ++ (if m = "open" then [s.nextSend] else []) := by
  refine ⟨by simp [SendM.send, h], by simp [SendM.send, h], by simp [SendM.send, h], ?_⟩
  intro m
  by_cases hm : m = "open" <;>
    simp [SendM.send, h, SendM.onceBucket, RTC_EventEmitter.once, Listeners.bucketAdd, hm]

theorem SendM.queueSends_spec (n : Nat) : ∀ s : SendM, ¬ s.connectionState = "open" →
    (SendM.queueSends s n).connectionState = s.connectionState ∧
    (SendM.queueSends s n).settled = s.settled ∧
    ∀ m, (SendM.queueSends s n).onceBucket m
        = s.onceBucket m ++ (if m = "open" then List.range' s.nextSend n else []) := by
  induction n with
  | zero => intro s _; refine ⟨rfl, rfl, fun m => by simp [SendM.queueSends]⟩
  | succ k ih =>
      intro s hs
      obtain ⟨h1, h2, h3, h4⟩ := SendM.send_not_open s true hs
      have hs' : ¬ (SendM.send s true).connectionState = "open" := by rw [h1]; exact hs
      obtain ⟨g1, g2, g3⟩ := ih (SendM.send s true) hs'
      have step : SendM.queueSends s (k + 1) = SendM.queueSends (SendM.send s true) k := rfl
      refine ⟨by rw [step, g1, h1], by rw [step, g2, h2], ?_⟩
      intro m
      rw [step, g3 m, h4 m, h3]
      by_cases hm : m = "open"
      · simp [hm, List.range'_succ]
      · simp [hm]

/-- C1: a send call made while the connection state is not open never throws
synchronously (the not-open branch of send is total: it only logs and registers a
one-shot open listener); it settles no future at call time; each of n such calls
appends its id to the one-shot open bucket in call order; dispatching any event other
than open settles none of them; and dispatching open settles exactly the queued
futures, in first-queued-first-resolved order (ids s.nextSend, s.nextSend+1, ...),
with outcome ok i for each (all resolve when every transport write succeeds).
The hypothesis honOther reflects that send registers one-shot listeners only under
the name open, so no other one-shot bucket holds a send closure. -/
theorem C1_send_while_not_open_queues_fifo (s : SendM) (n : Nat) (ok : Nat → Bool)
    (hstate : ¬ s.connectionState = "open")
    (honOther : ∀ m, ¬ m = "open" → s.onceBucket m = []) :
    (SendM.queueSends s n).settled = s.settled ∧
    (SendM.queueSends s n).onceBucket "open"
        = s.onceBucket "open" ++ List.range' s.nextSend n ∧
    (∀ m, ¬ m = "open" →
        (SendM.fireEvent (SendM.queueSends s n) m ok).settled = s.settled) ∧
    (SendM.fireEvent (SendM.queueSends s n) "open" ok).settled
        = s.settled ++ (s.onceBucket "open" ++ List.range' s.nextSend n).map
            (fun i => (i, ok i)) := by
  obtain ⟨h1, h2, h3⟩ := SendM.queueSends_spec n s hstate
  refine ⟨h2, by rw [h3 "open"]; simp, ?_, ?_⟩
  · intro m hm
    have hb : ((SendM.queueSends s n).em.onceMap m).getD [] = [] := by
      have hq := h3 m
      have ho := honOther m hm
      simp only [SendM.onceBucket] at hq ho
      rw [hq, ho]
      simp [hm]
    simp [SendM.fireEvent, RTC_EventEmitter.dispatch, hb, h2]
  · have hb : ((SendM.queueSends s n).em.onceMap "open").getD []
        = s.onceBucket "open" ++ List.range' s.nextSend n := by
      have hq := h3 "open"
      simp only [SendM.onceBucket] at hq
      rw [hq]
      simp [SendM.onceBucket]
    simp [SendM.fireEvent, RTC_EventEmitter.dispatch, hb, h2, List.map_append]

/-- Witness for C1: three sends queued from the connecting state settle nothing at
call time, sit in the one-shot open bucket in call order, and a later open dispatch
with an all-success transport resolves exactly them, first queued first resolved. -/
theorem C1_send_while_not_open_queues_fifo_witness :
    (SendM.queueSends sendC1 3).settled = [] ∧
    (SendM.queueSends sendC1 3).onceBucket "open" = [0, 1, 2] ∧
    (SendM.fireEvent (SendM.queueSends sendC1 3) "close" (fun _ => true)).settled = [] ∧
    (SendM.fireEvent (SendM.queueSends sendC1 3) "open" (fun _ => true)).settled
        = [(0, true), (1, true), (2, true)] := by
  obtain ⟨h1, h2, h3, h4⟩ :=
    C1_send_while_not_open_queues_fifo sendC1 3 (fun _ => true) (by decide)
      (fun m _ => rfl)
  exact ⟨h1, h2.trans (by decide), h3 "close" (by decide), h4.trans (by decide)⟩

theorem IW.changeState_not_close (name : String) (s : IW.State) (h : ¬ name = "close") :
    IW.changeState name s = { s with connectionState := name } := by
  simp [IW.changeState, h]

theorem IW.changeState_close_noreconnect (s : IW.State) (h : s.willReconnect = false) :
    IW.changeState "close" s = { s with connectionState := "close" } := by
  simp [IW.changeState, h]

theorem lr_filter_ping (i : Nat) (l : List (Nat × TKind)) :
    (List.filter (fun t => t.2 = TKind.reconnect)
        (l.filter (fun t => ¬ t = (i, TKind.ping)))).map Prod.fst
      = (List.filter (fun t => t.2 = TKind.reconnect) l).map Prod.fst := by
  have hcong : List.filter (fun t => t.2 = TKind.reconnect)
      (l.filter (fun t => ¬ t = (i, TKind.ping)))
      = List.filter (fun t => t.2 = TKind.reconnect) l := by
    rw [List.filter_filter]
    apply List.filter_congr
    rintro ⟨n, k⟩ _
    cases k <;> simp [Prod.mk.injEq]
  rw [hcong]

theorem IW.liveReconnect_clearPing (s : IW.State) :
    IW.liveReconnect (IW.clearPingPongInterval s) = IW.liveReconnect s := by
  cases hp : s.pingPongIntervalTimer with
  | none =>
      show IW.liveReconnect { s with live := clearHandle s.live s.pingPongIntervalTimer TKind.ping }
          = IW.liveReconnect s
      rw [hp]
      rfl
  | some i =>
      show ((clearHandle s.live s.pingPongIntervalTimer TKind.ping).filter
              (fun t => t.2 = TKind.reconnect)).map Prod.fst
          = IW.liveReconnect s
      rw [hp]
      exact lr_filter_ping i s.live

theorem IW.mem_liveReconnect (s : IW.State) (k : Nat)
    (h : (k, TKind.reconnect) ∈ s.live) : k ∈ IW.liveReconnect s :=
  List.mem_map.mpr ⟨(k, TKind.reconnect), List.mem_filter.mpr ⟨h, by simp⟩, rfl⟩

theorem clear_rec_all (l : List (Nat × TKind)) (o : Option Nat)
    (h : ∀ k, (k, TKind.reconnect) ∈ l → o = some k) :
    List.filter (fun t => t.2 = TKind.reconnect) (clearHandle l o TKind.reconnect) = [] := by
  cases o with
  | none =>
      show List.filter (fun t => t.2 = TKind.reconnect) l = []
      rw [List.filter_eq_nil_iff]
      rintro ⟨n, k⟩ ht
      simp only [decide_eq_true_eq]
      intro hk
      subst hk
      exact Option.noConfusion (h n ht)
  | some id =>
      show List.filter (fun t => t.2 = TKind.reconnect)
          (l.filter (fun t => ¬ t = (id, TKind.reconnect))) = []
      rw [List.filter_eq_nil_iff]
      rintro ⟨n, k⟩ ht
      rcases List.mem_filter.mp ht with ⟨htl, hq⟩
      simp only [decide_eq_true_eq] at hq ⊢
      intro hk
      subst hk
      exact hq (by rw [Option.some.inj (h n htl)])

theorem IW.close_quiet (s : IW.State)
    (h : ∀ k, (k, TKind.reconnect) ∈ s.live → s.reconnectionTimeout = some k) :
    (IW.close s).willReconnect = false ∧
    IW.liveReconnect (IW.close s) = [] ∧
    (IW.close s).reconAttempts = s.reconAttempts := by
  have key := clear_rec_all s.live s.reconnectionTimeout h
  refine ⟨rfl, ?_, rfl⟩
  show IW.liveReconnect (IW.clearPingPongInterval
      { s with willReconnect := false,
               live := clearHandle s.live s.reconnectionTimeout TKind.reconnect }) = []
  rw [IW.liveReconnect_clearPing]
  show ((clearHandle s.live s.reconnectionTimeout TKind.reconnect).filter
          (fun t => t.2 = TKind.reconnect)).map Prod.fst = []
  rw [key]
  rfl

theorem IW.step_quiet (a : IW.Step) (s : IW.State)
    (h1 : s.willReconnect = false) (h2 : IW.liveReconnect s = []) :
    (IW.stepRun a s).willReconnect = false ∧
    IW.liveReconnect (IW.stepRun a s) = [] ∧
    (IW.stepRun a s).reconAttempts = s.reconAttempts := by
  have hmem : ∀ k, ¬ (k, TKind.reconnect) ∈ s.live := by
    intro k hk
    have hmm := IW.mem_liveReconnect s k hk
    rw [h2] at hmm
    exact (List.not_mem_nil k) hmm
  cases a with
  | nopen =>
      rw [show IW.stepRun IW.Step.nopen s
          = IW.changeState "open" { s with pingPongIntervalTimer := some s.nextTimer,
                                           live := s.live ++ [(s.nextTimer, TKind.ping)],
                                           nextTimer := s.nextTimer + 1 } from rfl]
      rw [IW.changeState_not_close _ _ (by decide)]
      refine ⟨h1, ?_, rfl⟩
      show ((s.live ++ [(s.nextTimer, TKind.ping)]).filter
              (fun t => t.2 = TKind.reconnect)).map Prod.fst = []
      rw [List.filter_append, List.map_append]
      have h2l : (s.live.filter (fun t => t.2 = TKind.reconnect)).map Prod.fst = [] := h2
      rw [h2l]
      simp
  | nmsg => exact ⟨h1, h2, rfl⟩
  | nclose =>
      have hcp : (IW.clearPingPongInterval s).willReconnect = false := h1
      have hlr := IW.liveReconnect_clearPing s
      rw [h2] at hlr
      rw [show IW.stepRun IW.Step.nclose s
          = IW.changeState "close" (IW.clearPingPongInterval s) from rfl]
      rw [IW.changeState_close_noreconnect _ hcp]
      exact ⟨hcp, hlr, rfl⟩
  | nerror =>
      rw [show IW.stepRun IW.Step.nerror s = IW.changeState "error" s from rfl]
      rw [IW.changeState_not_close _ _ (by decide)]
      exact ⟨h1, h2, rfl⟩
  | fire k =>
      rw [show IW.stepRun (IW.Step.fire k) s = IW.fireTimer k s from rfl]
      unfold IW.fireTimer
      rw [if_neg (hmem k)]
      exact ⟨h1, h2, rfl⟩

theorem IW.run_quiet (steps : List IW.Step) : ∀ s0 : IW.State,
    s0.willReconnect = false → IW.liveReconnect s0 = [] →
    (IW.run steps s0).willReconnect = false ∧
    IW.liveReconnect (IW.run steps s0) = [] ∧
    (IW.run steps s0).reconAttempts = s0.reconAttempts := by
  induction steps with
  | nil => intro s0 h1 h2; exact ⟨h1, h2, rfl⟩
  | cons a rest ih =>
      intro s0 h1 h2
      obtain ⟨g1, g2, g3⟩ := IW.step_quiet a s0 h1 h2
      obtain ⟨f1, f2, f3⟩ := ih (IW.stepRun a s0) g1 g2
      exact ⟨f1, f2, f3.trans g3⟩

theorem lrList_append (a b : List (Nat × TKind)) :
    lrList (a ++ b) = lrList a ++ lrList b := by
  simp [lrList, List.filter_append]

theorem clearHandle_ping_lrList (l : List (Nat × TKind)) (o : Option Nat) :
    lrList (clearHandle l o TKind.ping) = lrList l := by
  cases o with
  | none => rfl
  | some i => exact lr_filter_ping i l

theorem IW.reconnect_live (s : IW.State) :
    (IW.reconnect s).live
      = s.live ++ (if s.reconnectionInterval = 0 then []
                   else [(s.nextTimer, TKind.reconnect)]) := by
  by_cases h : s.reconnectionInterval = 0 <;>
    simp [IW.reconnect, IW.closeConnection, h]

theorem IW.changeState_close_willreconnect (s : IW.State) (h : s.willReconnect = true) :
    IW.changeState "close" s = IW.reconnect { s with connectionState := "close" } := by
  simp [IW.changeState, h]

theorem IW.notifyClose_live (s : IW.State) :
    (IW.notifyClose s).live
      = clearHandle s.live s.pingPongIntervalTimer TKind.ping
        ++ (if s.willReconnect = true ∧ ¬ s.reconnectionInterval = 0
            then [(s.nextTimer, TKind.reconnect)] else []) := by
  by_cases hw : s.willReconnect = true
  · have hw' : (IW.clearPingPongInterval s).willReconnect = true := hw
    rw [show IW.notifyClose s = IW.changeState "close" (IW.clearPingPongInterval s) from rfl,
        IW.changeState_close_willreconnect _ hw', IW.reconnect_live]
    show clearHandle s.live s.pingPongIntervalTimer TKind.ping
        ++ (if s.reconnectionInterval = 0 then [] else [(s.nextTimer, TKind.reconnect)])
        = clearHandle s.live s.pingPongIntervalTimer TKind.ping
          ++ (if s.willReconnect = true ∧ ¬ s.reconnectionInterval = 0
              then [(s.nextTimer, TKind.reconnect)] else [])
    by_cases hi : s.reconnectionInterval = 0 <;> simp [hw, hi]
  · have hw0 : s.willReconnect = false := by revert hw; cases s.willReconnect <;> simp
    have hw0' : (IW.clearPingPongInterval s).willReconnect = false := hw0
    rw [show IW.notifyClose s = IW.changeState "close" (IW.clearPingPongInterval s) from rfl,
        IW.changeState_close_noreconnect _ hw0']
    show clearHandle s.live s.pingPongIntervalTimer TKind.ping
        = clearHandle s.live s.pingPongIntervalTimer TKind.ping
          ++ (if s.willReconnect = true ∧ ¬ s.reconnectionInterval = 0
              then [(s.nextTimer, TKind.reconnect)] else [])
    simp [hw0]

/-- C2 counterexample: the claim states that an explicit reconnect() call schedules
exactly one reconnection attempt for every value of reconnectionInterval, including
zero.  On the code this is false at interval zero: reconnect() guards the setTimeout
with if (this.reconnectionInterval) (src/index.ts line 378), so with the interval set
to 0 the call schedules no timer at all — the live timer list is unchanged and no
reconnect timer exists. -/
theorem C2_counterexample_reconnect_at_zero_schedules_none :
    iwC2.reconnectionInterval = 0 ∧
    (IW.reconnect iwC2).live = iwC2.live ∧
    IW.liveReconnect (IW.reconnect iwC2) = [] := by
  refine ⟨rfl, by decide, by decide⟩

/-- C2 amended: an explicit reconnect() call schedules exactly one reconnection
attempt when reconnectionInterval is nonzero and none when it is zero (the same guard
as the automatic path); an unexpected transport close with interval zero also
schedules none.  In both paths the previously pending timer is never cancelled. -/
theorem C2_amended_reconnect_schedules_iff_interval_nonzero (s : IW.State) :
    (¬ s.reconnectionInterval = 0 →
        IW.liveReconnect (IW.reconnect s) = IW.liveReconnect s ++ [s.nextTimer]) ∧
    (s.reconnectionInterval = 0 → (IW.reconnect s).live = s.live) ∧
    (s.reconnectionInterval = 0 →
        (IW.notifyClose s).live = (IW.clearPingPongInterval s).live) := by
  have e2 : IW.liveReconnect s = lrList s.live := rfl
  refine ⟨?_, ?_, ?_⟩
  · intro h
    have e1 : IW.liveReconnect (IW.reconnect s) = lrList (IW.reconnect s).live := rfl
    rw [e1, e2, IW.reconnect_live, lrList_append]
    simp [h, lrList]
  · intro h
    rw [IW.reconnect_live]
    simp [h]
  · intro h
    rw [IW.notifyClose_live]
    simp [h, IW.clearPingPongInterval]

/-- Witness for the C2 amended theorem, at a freshly connected instance with the
default interval 5000 and at the interval-zero instance iwC2. -/
theorem C2_amended_reconnect_schedules_iff_interval_nonzero_witness :
    IW.liveReconnect (IW.reconnect (IW.connect IW.init))
        = IW.liveReconnect (IW.connect IW.init) ++ [(IW.connect IW.init).nextTimer] ∧
    (IW.reconnect iwC2).live = iwC2.live ∧
    (IW.notifyClose iwC2).live = (IW.clearPingPongInterval iwC2).live :=
  ⟨(C2_amended_reconnect_schedules_iff_interval_nonzero (IW.connect IW.init)).1 (by decide),
   (C2_amended_reconnect_schedules_iff_interval_nonzero iwC2).2.1 (by decide),
   (C2_amended_reconnect_schedules_iff_interval_nonzero iwC2).2.2 (by decide)⟩

/-- C5 counterexample: the claim states that at most one pending reconnect timer is
ever live because the reconnection procedure cancels the existing timer before
scheduling.  On the code reconnect() contains no clearTimeout (src/index.ts lines
375-384): after two consecutive reconnect() calls on a connected instance with the
default interval, timers 0 and 1 are both live while only handle 1 is stored. -/
theorem C5_counterexample_two_live_reconnect_timers :
    IW.liveReconnect iwC5 = [0, 1] ∧
    iwC5.reconnectionTimeout = some 1 := by
  refine ⟨by decide, rfl⟩

/-- C5 amended: the reconnection procedure cancels nothing — each reconnect() call
and each willReconnect transport close appends exactly one new live reconnect timer
when the interval is nonzero (and none otherwise) while all previously live reconnect
timers stay live, so the number of live reconnect timers can exceed one. -/
theorem C5_amended_reconnect_appends_without_cancelling (s : IW.State) :
    IW.liveReconnect (IW.reconnect s)
        = IW.liveReconnect s
          ++ (if s.reconnectionInterval = 0 then [] else [s.nextTimer]) ∧
    IW.liveReconnect (IW.notifyClose s)
        = IW.liveReconnect s
          ++ (if s.willReconnect = true ∧ ¬ s.reconnectionInterval = 0
              then [s.nextTimer] else []) := by
  have e2 : IW.liveReconnect s = lrList s.live := rfl
  constructor
  · have e1 : IW.liveReconnect (IW.reconnect s) = lrList (IW.reconnect s).live := rfl
    rw [e1, e2, IW.reconnect_live, lrList_append]
    by_cases hi : s.reconnectionInterval = 0 <;> simp [hi, lrList]
  · have e1 : IW.liveReconnect (IW.notifyClose s) = lrList (IW.notifyClose s).live := rfl
    rw [e1, e2, IW.notifyClose_live, lrList_append, clearHandle_ping_lrList]
    by_cases hc : s.willReconnect = true ∧ ¬ s.reconnectionInterval = 0 <;>
      simp [hc, lrList]

/-- C3 counterexample: the claim states that after an explicit close() no reconnect
timer ever fires until a fresh connect().  On the code this fails in the reachable
state iwC3 (connect, reconnect, reconnect, close): close() clears only the stored
handle 1 (src/index.ts line 404), the overwritten timer 0 is still live after
close(), and its firing performs a reconnection attempt (createSocket(true)),
moving the state to reconnecting. -/
theorem C3_counterexample_overwritten_timer_fires_after_close :
    (0, TKind.reconnect) ∈ iwC3.live ∧
    (IW.fireTimer 0 iwC3).reconAttempts = iwC3.reconAttempts + 1 ∧
    (IW.fireTimer 0 iwC3).connectionState = "reconnecting" := by
  refine ⟨by decide, by decide, by decide⟩

/-- C3 amended: after an explicit close() on a state in which every live reconnect
timer is the one named by the stored handle (in particular when at most one reconnect
timer was ever scheduled since the last close), no sequence of transport
notifications and timer firings without an intervening connect() ever performs or
schedules a reconnection attempt: the attempt counter is unchanged, no reconnect
timer is live, and willReconnect stays false.  Without that proviso a previously
overwritten reconnect timer survives close() and fires, as the counterexample
shows. -/
theorem C3_amended_no_reconnect_after_close (s : IW.State)
    (h : ∀ k, (k, TKind.reconnect) ∈ s.live → s.reconnectionTimeout = some k)
    (steps : List IW.Step) :
    (IW.run steps (IW.close s)).reconAttempts = s.reconAttempts ∧
    IW.liveReconnect (IW.run steps (IW.close s)) = [] ∧
    (IW.run steps (IW.close s)).willReconnect = false := by
  obtain ⟨b1, b2, b3⟩ := IW.close_quiet s h
  obtain ⟨f1, f2, f3⟩ := IW.run_quiet steps (IW.close s) b1 b2
  exact ⟨f3.trans b3, f2, f1⟩

/-- Witness for the C3 amended theorem: one reconnect() after connect() leaves a
single live reconnect timer whose handle is stored, and after close() a close
notification, an open notification and a stale timer firing perform no reconnection
attempt. -/
theorem C3_amended_no_reconnect_after_close_witness :
    (IW.run [IW.Step.nclose, IW.Step.nopen, IW.Step.fire 0] (IW.close iwC3w)).reconAttempts
        = iwC3w.reconAttempts ∧
    IW.liveReconnect
        (IW.run [IW.Step.nclose, IW.Step.nopen, IW.Step.fire 0] (IW.close iwC3w)) = [] ∧
    (IW.run [IW.Step.nclose, IW.Step.nopen, IW.Step.fire 0] (IW.close iwC3w)).willReconnect
        = false :=
  C3_amended_no_reconnect_after_close iwC3w
    (by
      intro k hk
      have hl : iwC3w.live = [(0, TKind.reconnect)] := by decide
      rw [hl] at hk
      have he := List.mem_singleton.mp hk
      have hk0 : k = 0 := congrArg Prod.fst he
      rw [hk0]
      decide)
    [IW.Step.nclose, IW.Step.nopen, IW.Step.fire 0]

/-- C7 counterexample: the claim states that leaveRoom removes the room from the
registry once the send future settles, regardless of whether the send succeeded or
failed.  On the code the removal callback is attached with .then(onFulfilled) only
(src/index.ts line 239), so when the leave send rejects the room stays in the
registry: with registry [lobby], after a rejected leave send the registry still
contains lobby. -/
theorem C7_counterexample_rejected_leave_keeps_room :
    leaveRoom ["lobby"] "lobby" false
      = ([RTC_Room.leaveEnvelope "lobby"], ["lobby"]) := by
  decide

/-- C7 amended: leaveRoom sends one leave envelope for the first room whose name
matches exactly (none when no name matches), and removes that room from the registry
only when the send future fulfills; when the future rejects the registry is
unchanged. -/
theorem C7_amended_remove_only_on_fulfilled (rooms : List String) (name : String) :
    (¬ name ∈ rooms →
        leaveRoom rooms name true = ([], rooms) ∧
        leaveRoom rooms name false = ([], rooms)) ∧
    (name ∈ rooms →
        leaveRoom rooms name true = ([RTC_Room.leaveEnvelope name], rooms.erase name) ∧
        leaveRoom rooms name false = ([RTC_Room.leaveEnvelope name], rooms)) := by
  induction rooms with
  | nil =>
      exact ⟨fun _ => ⟨rfl, rfl⟩, fun h => absurd h (List.not_mem_nil name)⟩
  | cons r rest ih =>
      by_cases hr : r = name
      · subst hr
        refine ⟨fun hnm => absurd (List.mem_cons_self r rest) hnm, fun _ => ?_⟩
        constructor
        · simp [leaveRoom, List.erase_cons_head]
        · simp [leaveRoom]
      · constructor
        · intro hnm
          have hnr : ¬ name ∈ rest := fun hm => hnm (List.mem_cons_of_mem r hm)
          obtain ⟨ht, hf⟩ := ih.1 hnr
          exact ⟨by simp [leaveRoom, hr, ht], by simp [leaveRoom, hr, hf]⟩
        · intro hm
          have hm' : name ∈ rest := by
            rcases List.mem_cons.mp hm with h | h
            · exact absurd h.symm hr
            · exact h
          obtain ⟨ht, hf⟩ := ih.2 hm'
          constructor
          · have he : (r :: rest).erase name = r :: rest.erase name :=
              List.erase_cons_tail (by simp [hr])
            simp [leaveRoom, hr, ht, he]
          · simp [leaveRoom, hr, hf]

/-- Witness for the C7 amended theorem: registry [lobby, den], leaving lobby with a
fulfilled send removes it, with a rejected send keeps it; leaving a name not in the
registry sends nothing. -/
theorem C7_amended_remove_only_on_fulfilled_witness :
    leaveRoom ["lobby", "den"] "lobby" true
        = ([RTC_Room.leaveEnvelope "lobby"], ["den"]) ∧
    leaveRoom ["lobby", "den"] "lobby" false
        = ([RTC_Room.leaveEnvelope "lobby"], ["lobby", "den"]) ∧
    leaveRoom ["lobby", "den"] "hall" true = ([], ["lobby", "den"]) := by
  obtain ⟨ht, hf⟩ := (C7_amended_remove_only_on_fulfilled ["lobby", "den"] "lobby").2 (by decide)
  obtain ⟨hn, _⟩ := (C7_amended_remove_only_on_fulfilled ["lobby", "den"] "hall").1 (by decide)
  exact ⟨ht.trans (by decide), hf, hn⟩

/-- C8: for every inbound decoded envelope whose event name is ping, the message
listener of the full RTC_Websocket variant emits exactly one outbound pong envelope
addressed to the system receiver and dispatches nothing: no message dispatch, hence
no event, no filtered event.<name> and no room dispatch for that frame. -/
theorem C8_ping_answered_with_one_pong_no_dispatch
    (pinfo puinfo : String → Option String) (rooms : List String) (env : Envelope)
    (h : env.event = "ping") :
    processInbound pinfo puinfo rooms env
      = Except.ok ([sendToSystem "pong"], []) := by
  simp [processInbound, onSocketMessage, h]

/-- Witness for C8 at the concrete ping envelope. -/
theorem C8_ping_answered_with_one_pong_no_dispatch_witness :
    processInbound (fun _ => none) (fun _ => none) ["lobby"] envPing
      = Except.ok ([sendToSystem "pong"], []) :=
  C8_ping_answered_with_one_pong_no_dispatch (fun _ => none) (fun _ => none) ["lobby"]
    envPing rfl

theorem roomScan_eq_firstIdx (rid evname : String) (rooms : List String) : ∀ base : Nat,
    roomScan rooms rid evname base
      = match firstIdx rooms rid with
        | none => []
        | some i =>
            [{ target := BusTarget.room (base + i), name := "all_events" },
             { target := BusTarget.room (base + i), name := evname }] := by
  induction rooms with
  | nil => intro base; rfl
  | cons r rest ih =>
      intro base
      by_cases hr : r = rid
      · simp [roomScan, firstIdx, hr]
      · rw [show roomScan (r :: rest) rid evname base = roomScan rest rid evname (base + 1)
            from by simp [roomScan, hr]]
        rw [ih (base + 1)]
        rw [show firstIdx (r :: rest) rid = (firstIdx rest rid).map (fun i => i + 1)
            from by simp [firstIdx, hr]]
        cases hfi : firstIdx rest rid with
        | none => rfl
        | some i =>
            have harith : base + 1 + i = base + (i + 1) := by omega
            simp [harith]

/-- C9: for every registry and every envelope with a nonempty event name and a room
receiver, the constructor routing of src/index.ts dispatches, besides the two
connection-bus event dispatches, exactly one all_events and one event-name dispatch
on the bus of the first room whose name equals the receiver id, and nothing on any
other room's bus; when no room name matches, no room bus is dispatched.  The routing
of the full variant (src/src/Websocket.ts) agrees whenever the event is not the
reserved control event conn.rejected. -/
theorem C9_room_routing_first_match_only (rooms : List String) (env : Envelope)
    (h1 : ¬ env.event = "") (h2 : env.receiver.type = "room") :
    (∀ i, firstIdx rooms env.receiver.id = some i →
        routeMessageIW rooms env
          = [{ target := BusTarget.conn, name := "event" },
             { target := BusTarget.conn, name := "event." ++ env.event },
             { target := BusTarget.room i, name := "all_events" },
             { target := BusTarget.room i, name := env.event }]) ∧
    (firstIdx rooms env.receiver.id = none →
        routeMessageIW rooms env
          = [{ target := BusTarget.conn, name := "event" },
             { target := BusTarget.conn, name := "event." ++ env.event }]) ∧
    (¬ env.event = "conn.rejected" →
        routeMessageW2 rooms env = routeMessageIW rooms env) := by
  refine ⟨?_, ?_, ?_⟩
  · intro i hi
    simp [routeMessageIW, h1, h2, roomScan_eq_firstIdx env.receiver.id env.event rooms 0, hi]
  · intro hn
    simp [routeMessageIW, h1, h2, roomScan_eq_firstIdx env.receiver.id env.event rooms 0, hn]
  · intro h3
    simp [routeMessageW2, routeMessageIW, h1, h3]

theorem lrList_subset_of_sublist (l1 l2 : List (Nat × TKind)) (h : List.Sublist l1 l2) :
    lrList l1 ⊆ lrList l2 :=
  ((h.filter _).map _).subset

theorem clearHandle_sublist (l : List (Nat × TKind)) (o : Option Nat) (k : TKind) :
    List.Sublist (clearHandle l o k) l := by
  cases o with
  | none => exact List.Sublist.refl l
  | some id => exact List.filter_sublist l

theorem not_mem_clearHandle_self (l : List (Nat × TKind)) (k : Nat) (kind : TKind) :
    ¬ (k, kind) ∈ clearHandle l (some k) kind := by
  intro hm
  rcases List.mem_filter.mp hm with ⟨_, hq⟩
  simp at hq

theorem W2.changeStateW2_not_close (name : String) (s : W2.State) (h : ¬ name = "close") :
    W2.changeState name s = { s with connectionState := name } := by
  simp [W2.changeState, h]

theorem W2.changeStateW2_close_noreconnect (s : W2.State) (h : s.willReconnect = false) :
    W2.changeState "close" s = { s with connectionState := "close" } := by
  simp [W2.changeState, h]

theorem W2.changeStateW2_close_willreconnect (s : W2.State) (h : s.willReconnect = true) :
    W2.changeState "close" s = W2.reconnect { s with connectionState := "close" } := by
  simp [W2.changeState, h]

theorem W2.reconnect_noop (s : W2.State) (h : s.canReconnect = false) :
    W2.reconnect s = s := by
  simp [W2.reconnect, h]

theorem decodeInfoFields_preserves (pinfo puinfo : String → Option String)
    (env e2 : Envelope) (h : decodeInfoFields pinfo puinfo env = Except.ok e2) :
    e2.event = env.event ∧ e2.receiver = env.receiver := by
  unfold decodeInfoFields at h
  split at h
  · simp at h
  · split at h
    · simp at h
    · split at h
      · simp at h
      · injection h with h2
        subst h2
        exact ⟨rfl, rfl⟩

theorem onSocketMessage_ok_some (pinfo puinfo : String → Option String)
    (env : Envelope) (o : List OutAction) (e2 : Envelope)
    (h : onSocketMessage pinfo puinfo env = Except.ok (o, some e2)) :
    e2.event = env.event ∧ e2.receiver = env.receiver := by
  unfold onSocketMessage at h
  by_cases hpong : env.event = "pong"
  · rw [if_pos hpong] at h
    simp at h
  · rw [if_neg hpong] at h
    by_cases hping : env.event = "ping"
    · rw [if_pos hping] at h
      simp at h
    · rw [if_neg hping] at h
      cases hd : decodeInfoFields pinfo puinfo env with
      | error e => rw [hd] at h; simp at h
      | ok env3 =>
          rw [hd] at h
          have he3 : env3 = e2 := by
            injection h with h2
            exact congrArg Prod.snd h2 |> Option.some.inj
          subst he3
          exact decodeInfoFields_preserves pinfo puinfo env env3 hd

theorem W2.notifyMessage_rejected (pinfo puinfo : String → Option String)
    (env : Envelope) (s : W2.State) (o : List OutAction) (e2 : Envelope)
    (h1 : env.event = "conn.rejected")
    (h2 : onSocketMessage pinfo puinfo env = Except.ok (o, some e2)) :
    W2.notifyMessage pinfo puinfo env s
      = { W2.stopReconnectionTimeout (W2.stopPingPong s) with canReconnect := false } := by
  obtain ⟨he, _⟩ := onSocketMessage_ok_some pinfo puinfo env o e2 h2
  unfold W2.notifyMessage
  rw [h2]
  show (if ¬ e2.event = "" then
          if e2.event = "conn.rejected" then
            { W2.stopReconnectionTimeout (W2.stopPingPong s) with canReconnect := false }
          else s
        else s)
      = { W2.stopReconnectionTimeout (W2.stopPingPong s) with canReconnect := false }
  rw [he, h1]
  simp

theorem W2.notifyMessage_cases (pinfo puinfo : String → Option String)
    (env : Envelope) (s : W2.State) :
    W2.notifyMessage pinfo puinfo env s = s ∨
    W2.notifyMessage pinfo puinfo env s
      = { W2.stopReconnectionTimeout (W2.stopPingPong s) with canReconnect := false } := by
  unfold W2.notifyMessage
  split
  · exact Or.inl rfl
  · exact Or.inl rfl
  · split
    · split
      · exact Or.inr rfl
      · exact Or.inl rfl
    · exact Or.inl rfl

theorem W2.step_preserves_norecon (pinfo puinfo : String → Option String)
    (a : W2.Step) (s : W2.State) (h : s.canReconnect = false) :
    (W2.stepRun pinfo puinfo a s).canReconnect = false ∧
    W2.liveReconnect (W2.stepRun pinfo puinfo a s) ⊆ W2.liveReconnect s := by
  cases a with
  | uconnect => exact ⟨h, List.Subset.refl _⟩
  | uclose =>
      refine ⟨h, ?_⟩
      exact lrList_subset_of_sublist _ _
        ((clearHandle_sublist _ _ _).trans (clearHandle_sublist _ _ _))
  | ureconnect =>
      show (W2.reconnect s).canReconnect = false ∧
        W2.liveReconnect (W2.reconnect s) ⊆ W2.liveReconnect s
      rw [W2.reconnect_noop s h]
      exact ⟨h, List.Subset.refl _⟩
  | nopen =>
      have hc : (if s.isClientPingEnabled = true then W2.startPingPong s else s).canReconnect
          = s.canReconnect := by
        by_cases hp : s.isClientPingEnabled = true <;> simp [hp, W2.startPingPong]
      have hl : W2.liveReconnect (if s.isClientPingEnabled = true then W2.startPingPong s else s)
          = W2.liveReconnect s := by
        by_cases hp : s.isClientPingEnabled = true <;>
          simp [hp, W2.startPingPong, W2.liveReconnect, lrList_append, lrList]
      show (W2.changeState "open"
              (if s.isClientPingEnabled = true then W2.startPingPong s else s)).canReconnect
            = false ∧
          W2.liveReconnect (W2.changeState "open"
              (if s.isClientPingEnabled = true then W2.startPingPong s else s))
            ⊆ W2.liveReconnect s
      rw [W2.changeStateW2_not_close _ _ (by decide)]
      refine ⟨hc.trans h, ?_⟩
      intro x hx
      rw [← hl]
      exact hx
  | nclose =>
      have hXsub : W2.liveReconnect (W2.stopPingPong s) ⊆ W2.liveReconnect s :=
        lrList_subset_of_sublist _ _ (clearHandle_sublist _ _ _)
      show (W2.changeState "close" (W2.stopPingPong s)).canReconnect = false ∧
          W2.liveReconnect (W2.changeState "close" (W2.stopPingPong s)) ⊆ W2.liveReconnect s
      by_cases hw : (W2.stopPingPong s).willReconnect = true
      · rw [W2.changeStateW2_close_willreconnect _ hw]
        have hYn : W2.reconnect { W2.stopPingPong s with connectionState := "close" }
            = { W2.stopPingPong s with connectionState := "close" } :=
          W2.reconnect_noop { W2.stopPingPong s with connectionState := "close" } h
        rw [hYn]
        exact ⟨h, hXsub⟩
      · have hw0 : (W2.stopPingPong s).willReconnect = false := by
          revert hw; cases (W2.stopPingPong s).willReconnect <;> simp
        rw [W2.changeStateW2_close_noreconnect _ hw0]
        exact ⟨h, hXsub⟩
  | nerror =>
      show (W2.changeState "error" s).canReconnect = false ∧
          W2.liveReconnect (W2.changeState "error" s) ⊆ W2.liveReconnect s
      rw [W2.changeStateW2_not_close _ _ (by decide)]
      exact ⟨h, List.Subset.refl _⟩
  | nmsg env =>
      rcases W2.notifyMessage_cases pinfo puinfo env s with he | he
      · show (W2.notifyMessage pinfo puinfo env s).canReconnect = false ∧
            W2.liveReconnect (W2.notifyMessage pinfo puinfo env s) ⊆ W2.liveReconnect s
        rw [he]
        exact ⟨h, List.Subset.refl _⟩
      · show (W2.notifyMessage pinfo puinfo env s).canReconnect = false ∧
            W2.liveReconnect (W2.notifyMessage pinfo puinfo env s) ⊆ W2.liveReconnect s
        rw [he]
        refine ⟨rfl, ?_⟩
        exact lrList_subset_of_sublist _ _
          ((clearHandle_sublist _ _ _).trans (clearHandle_sublist _ _ _))
  | fire k =>
      show (W2.fireTimer k s).canReconnect = false ∧
          W2.liveReconnect (W2.fireTimer k s) ⊆ W2.liveReconnect s
      unfold W2.fireTimer
      by_cases hk : (k, TKind.reconnect) ∈ s.live
      · rw [if_pos hk]
        refine ⟨h, ?_⟩
        exact lrList_subset_of_sublist _ _ (List.erase_sublist _ _)
      · rw [if_neg hk]
        exact ⟨h, List.Subset.refl _⟩

theorem W2.run_preserves_norecon (pinfo puinfo : String → Option String)
    (steps : List W2.Step) : ∀ s : W2.State, s.canReconnect = false →
    (W2.runSteps pinfo puinfo steps s).canReconnect = false ∧
    W2.liveReconnect (W2.runSteps pinfo puinfo steps s) ⊆ W2.liveReconnect s := by
  induction steps with
  | nil => intro s h; exact ⟨h, List.Subset.refl _⟩
  | cons a rest ih =>
      intro s h
      obtain ⟨g1, g2⟩ := W2.step_preserves_norecon pinfo puinfo a s h
      obtain ⟨f1, f2⟩ := ih (W2.stepRun pinfo puinfo a s) g1
      exact ⟨f1, f2.trans g2⟩

/-- Witness for C9: with registry [lobby, den] and a chat envelope addressed to the
room lobby, exactly the two connection-bus event dispatches and the two dispatches
on room 0 (lobby) occur, and the full-variant routing agrees. -/
theorem C9_room_routing_first_match_only_witness :
    routeMessageIW ["lobby", "den"] envChat
      = [{ target := BusTarget.conn, name := "event" },
         { target := BusTarget.conn, name := "event.chat" },
         { target := BusTarget.room 0, name := "all_events" },
         { target := BusTarget.room 0, name := "chat" }] ∧
    routeMessageW2 ["lobby", "den"] envChat = routeMessageIW ["lobby", "den"] envChat := by
  obtain ⟨h1, _, h3⟩ :=
    C9_room_routing_first_match_only ["lobby", "den"] envChat (by decide) rfl
  exact ⟨(h1 0 (by decide)).trans (by decide), h3 (by decide)⟩

/-- C10: for every successfully decoded inbound frame whose event name is neither
ping nor pong, both message listeners read event.sender.info before any dispatch,
so a well-formed frame lacking a sender object makes the listener throw
synchronously: the whole inbound processing errors and no message, event, filtered
event.<name> or room dispatch occurs for that frame, in the full variant and in the
src/index.ts variant alike. -/
theorem C10_missing_sender_throws_before_any_dispatch
    (pinfo puinfo : String → Option String) (rooms : List String) (env : Envelope)
    (h1 : ¬ env.event = "ping") (h2 : ¬ env.event = "pong") (h3 : env.sender = none) :
    processInbound pinfo puinfo rooms env = Except.error () ∧
    processInboundIW pinfo puinfo rooms env = Except.error () := by
  constructor <;>
    simp [processInbound, processInboundIW, onSocketMessage, onSocketMessageIW,
      decodeInfoFields, h1, h2, h3]

/-- Witness for C10 at a concrete chat frame with no sender member. -/
theorem C10_missing_sender_throws_before_any_dispatch_witness :
    processInbound (fun _ => none) (fun _ => none) ["lobby"] envNoSender
        = Except.error () ∧
    processInboundIW (fun _ => none) (fun _ => none) ["lobby"] envNoSender
        = Except.error () :=
  C10_missing_sender_throws_before_any_dispatch (fun _ => none) (fun _ => none)
    ["lobby"] envNoSender (by decide) (by decide) rfl

/-- C4 counterexample: the claim states that on receipt of a conn.rejected envelope
any pending reconnect and keepalive timers are cancelled at that moment.  On the
code only the stored handles are cleared (stopReconnectionTimeout clears
this.reconnectionTimeout, src/src/Websocket.ts lines 564-565): in the reachable
state w2C4pre (connect, reconnect, reconnect) the reconnect timers 0 and 1 are both
live with only handle 1 stored, so after conn.rejected the overwritten timer 0 is
still live, and its later firing performs a reconnection attempt even though
canReconnect is false. -/
theorem C4_counterexample_overwritten_timer_survives_rejection :
    w2C4.canReconnect = false ∧
    W2.liveReconnect w2C4 = [0] ∧
    (W2.fireTimer 0 w2C4).reconAttempts = w2C4.reconAttempts + 1 ∧
    (W2.fireTimer 0 w2C4).connectionState = "reconnecting" := by
  refine ⟨by decide, by decide, by decide, by decide⟩

/-- C4 amended: a conn.rejected envelope that the message listener processes to the
message dispatch permanently disables reconnection for the remaining lifetime of the
instance: canReconnect becomes false and stays false under every later step (no
transport close or reconnect() call ever schedules a reconnection attempt — the set
of live reconnect timers never grows, and reconnect() becomes a no-op); at the
moment of receipt the keepalive timer and the reconnect timer named by the stored
handles are cancelled.  A previously overwritten (no longer stored) reconnect timer
is not cancelled, as the counterexample shows. -/
theorem C4_amended_rejection_disables_reconnect_permanently
    (pinfo puinfo : String → Option String) (env : Envelope) (s : W2.State)
    (h1 : env.event = "conn.rejected")
    (h2 : ∃ o e2, onSocketMessage pinfo puinfo env = Except.ok (o, some e2)) :
    (W2.notifyMessage pinfo puinfo env s).canReconnect = false ∧
    (∀ k, s.reconnectionTimeout = some k →
        ¬ (k, TKind.reconnect) ∈ (W2.notifyMessage pinfo puinfo env s).live) ∧
    (∀ k, s.pingPongIntervalTimer = some k →
        ¬ (k, TKind.ping) ∈ (W2.notifyMessage pinfo puinfo env s).live) ∧
    W2.reconnect (W2.notifyMessage pinfo puinfo env s)
        = W2.notifyMessage pinfo puinfo env s ∧
    ∀ steps : List W2.Step,
      (W2.runSteps pinfo puinfo steps (W2.notifyMessage pinfo puinfo env s)).canReconnect
          = false ∧
      W2.liveReconnect (W2.runSteps pinfo puinfo steps (W2.notifyMessage pinfo puinfo env s))
          ⊆ W2.liveReconnect (W2.notifyMessage pinfo puinfo env s) := by
  obtain ⟨o, e2, h2⟩ := h2
  have hrej := W2.notifyMessage_rejected pinfo puinfo env s o e2 h1 h2
  have hcr : (W2.notifyMessage pinfo puinfo env s).canReconnect = false := by
    rw [hrej]
  refine ⟨hcr, ?_, ?_, W2.reconnect_noop _ hcr, ?_⟩
  · intro k hk
    rw [hrej]
    show ¬ (k, TKind.reconnect) ∈
      clearHandle (clearHandle s.live s.pingPongIntervalTimer TKind.ping)
        s.reconnectionTimeout TKind.reconnect
    rw [hk]
    exact not_mem_clearHandle_self _ k TKind.reconnect
  · intro k hk
    rw [hrej]
    show ¬ (k, TKind.ping) ∈
      clearHandle (clearHandle s.live s.pingPongIntervalTimer TKind.ping)
        s.reconnectionTimeout TKind.reconnect
    intro hm
    have hm2 : (k, TKind.ping) ∈ clearHandle s.live s.pingPongIntervalTimer TKind.ping :=
      (clearHandle_sublist _ _ _).subset hm
    rw [hk] at hm2
    exact not_mem_clearHandle_self _ k TKind.ping hm2
  · intro steps
    exact W2.run_preserves_norecon pinfo puinfo steps _ hcr

/-- Witness for the C4 amended theorem at the concrete rejection in w2C4pre: the
stored reconnect handle 1 is cancelled at receipt, canReconnect is false, a further
reconnect() call is a no-op, and after a close notification followed by a
reconnect() call canReconnect is still false. -/
theorem C4_amended_rejection_disables_reconnect_permanently_witness :
    w2C4.canReconnect = false ∧
    ¬ (1, TKind.reconnect) ∈ w2C4.live ∧
    W2.reconnect w2C4 = w2C4 ∧
    (W2.runSteps (fun _ => none) (fun _ => none)
        [W2.Step.nclose, W2.Step.ureconnect] w2C4).canReconnect = false := by
  obtain ⟨a, b, _, d, e⟩ :=
    C4_amended_rejection_disables_reconnect_permanently (fun _ => none) (fun _ => none)
      envRejected w2C4pre rfl ⟨[], envRejected, rfl⟩
  exact ⟨a, b 1 rfl, d, (e [W2.Step.nclose, W2.Step.ureconnect]).1⟩
